import Mathlib

/-!
Verification of the workout-tracking app core
(source: src/components/NewRoutineForm.tsx, which contains both the
NewRoutineForm component and the WorkoutSession component).

Modelling conventions:
* JavaScript numbers that can be NaN are modelled as `Option ℚ`
  (`none` = NaN); `jsAdd`/`jsMul` propagate `none` like NaN.
* Wall-clock timestamps are integer epoch milliseconds (`Int`).
* `AsyncStorage` contents are passed and returned explicitly
  (the `Stores` record); an operation that does not write storage
  returns the stores it was given, unchanged.
* UI alerts/notifications are modelled as explicit result events.
-/

namespace GymApp

/-- `Exercise` record of the source (routine template entry). -/
structure Exercise where
  id : String
  name : String
  sets : Option Nat
  reps : Option Nat
deriving DecidableEq, Repr

/-- `Routine` record of the source. -/
structure Routine where
  id : String
  name : String
  exercisesString : String
  exercises : List Exercise
  createdAt : String
deriving DecidableEq, Repr

/-- `WorkoutSet` record of the source (weight/reps are UI-bound strings). -/
structure WorkoutSet where
  setNumber : Nat
  weight : String
  reps : String
  completed : Bool
deriving DecidableEq, Repr

/-- `WorkoutExercise` record of the source (session-scoped). -/
structure WorkoutExercise where
  exerciseId : String
  exerciseName : String
  sets : List WorkoutSet
  currentSet : Nat
  restTime : Int
deriving DecidableEq, Repr

/-- `WorkoutHistoryItem` as built in `saveWorkoutData`; the ISO timestamp
strings of the source are modelled as integer epoch milliseconds. -/
structure WorkoutHistoryItem where
  id : String
  routineName : String
  routineId : String
  exercises : List WorkoutExercise
  startTime : Int
  endTime : Int
  duration : Int
  completedSets : Nat
  totalSets : Nat
deriving DecidableEq, Repr

/-- JavaScript `x || d` on an optional number: `undefined` and `0` are
falsy, any other number is kept. Used for `exercise.sets || 3`,
`exercise.reps || 10`, `routineEx.sets || 3` in the source. -/
def orFalsy (v : Option Nat) (d : Nat) : Nat :=
  match v with
  | some n => if n = 0 then d else n
  | none => d

/-- Greedy digit scan: accumulated value, number of digits consumed,
rest of the input. Helper for the `parseFloat` model. -/
def takeDigitsAux (acc : Nat) (n : Nat) : List Char → Nat × Nat × List Char
  | c :: cs =>
      if c.isDigit then takeDigitsAux (acc * 10 + (c.toNat - 48)) (n + 1) cs
      else (acc, n, c :: cs)
  | [] => (acc, n, [])

/-- Model of JavaScript `parseFloat`: skip leading whitespace, optional
sign, then the longest leading run `digits[.digits]`; `none` models NaN
(no digit found). Exponent suffixes are not modelled. -/
def jsParseFloat (s : String) : Option ℚ :=
  let cs := s.toList.dropWhile (fun c => c = ' ' || c = '\t' || c = '\n' || c = '\r')
  let signAndRest : ℚ × List Char :=
    match cs with
    | '-' :: rest => (-1, rest)
    | '+' :: rest => (1, rest)
    | _ => (1, cs)
  let (ip, ipn, cs2) := takeDigitsAux 0 0 signAndRest.2
  let fracPart : Nat × Nat :=
    match cs2 with
    | '.' :: rest =>
        let (fp, fpn, _) := takeDigitsAux 0 0 rest
        (fp, fpn)
    | _ => (0, 0)
  if ipn = 0 ∧ fracPart.2 = 0 then none
  else some (signAndRest.1 * ((ip : ℚ) + (fracPart.1 : ℚ) / (10 ^ fracPart.2)))

/-- JavaScript addition with NaN propagation. -/
def jsAdd : Option ℚ → Option ℚ → Option ℚ
  | some a, some b => some (a + b)
  | _, _ => none

/-- JavaScript multiplication with NaN propagation. -/
def jsMul : Option ℚ → Option ℚ → Option ℚ
  | some a, some b => some (a * b)
  | _, _ => none

/-- Model of JavaScript `toLowerCase()` (`String.toLower` of the
library does not reduce; this list-based form does). -/
def strToLower (s : String) : String := String.mk (s.data.map Char.toLower)

/-- Model of `trim()`: drop whitespace from both ends (`String.trim` of
the library does not reduce; this list-based form does). -/
def strTrim (s : String) : String :=
  String.mk (((s.data.dropWhile Char.isWhitespace).reverse.dropWhile Char.isWhitespace).reverse)

/-- The guard `set.completed && set.weight && set.reps` of the source
(non-empty strings are truthy). -/
def qualifyingSet (s : WorkoutSet) : Bool :=
  s.completed && s.weight != "" && s.reps != ""

/-- The volume/completed-sets effect of `WorkoutSession`: for every set
passing `qualifyingSet`, add `parseFloat(weight) * parseFloat(reps)` to
the running total (NaN-propagating). -/
def currentVolume (exs : List WorkoutExercise) : Option ℚ :=
  exs.foldl
    (fun acc ex =>
      ex.sets.foldl
        (fun a s =>
          if qualifyingSet s then
            jsAdd a (jsMul (jsParseFloat s.weight) (jsParseFloat s.reps))
          else a)
        acc)
    (some 0)

/-- Modelled from the spec for claim C1 only (spec side of the
refinement): sum over completed sets of `parse(weight) * parse(reps)`
treating unparseable values as contributing `0`. -/
def volumeClaim (exs : List WorkoutExercise) : ℚ :=
  exs.foldl
    (fun acc ex =>
      ex.sets.foldl
        (fun a s =>
          if s.completed then
            a + ((jsParseFloat s.weight).getD 0) * ((jsParseFloat s.reps).getD 0)
          else a)
        acc)
    0

/-! ## Session init effect (`initWorkoutWithHistory`) -/

/-- The inner lookup of the history-seeding loop: in one history item,
the first exercise whose name matches case-insensitively, and within it
the last set passing `set.completed && set.weight && set.reps`
(`sets.slice().reverse().find(...)` in the source). -/
def histSeedOf (nm : String) (w : WorkoutHistoryItem) : Option WorkoutSet :=
  match w.exercises.find? (fun ex => strToLower ex.exerciseName == strToLower nm) with
  | some prev => prev.sets.reverse.find? qualifyingSet
  | none => none

/-- The `for (const workout of history)` loop of the source: walk the
history (most-recent-first), and `break` with the found set's
weight/reps as soon as a matching exercise yields a qualifying last
completed set; otherwise keep scanning older items. -/
def seedFromHistory (nm : String) : List WorkoutHistoryItem → Option (String × String)
  | [] => none
  | w :: rest =>
    match w.exercises.find? (fun ex => strToLower ex.exerciseName == strToLower nm) with
    | some prev =>
      match prev.sets.reverse.find? qualifyingSet with
      | some s => some (s.weight, s.reps)
      | none => seedFromHistory nm rest
    | none => seedFromHistory nm rest

/-- Spec-side characterization of the seeding: the first qualifying set
produced across the whole history, most-recent-first. -/
def firstSeed (nm : String) (hist : List WorkoutHistoryItem) : Option (String × String) :=
  ((hist.filterMap (histSeedOf nm)).head?).map (fun s => (s.weight, s.reps))

/-- Modelled from the spec's words for claim C2 only (claim side of the
refinement): the scan stops at the first history item containing a
matching exercise, whether or not that item yields a qualifying set. -/
def seedFromHistoryClaim (nm : String) : List WorkoutHistoryItem → Option (String × String)
  | [] => none
  | w :: rest =>
    match w.exercises.find? (fun ex => strToLower ex.exerciseName == strToLower nm) with
    | some prev =>
      (prev.sets.reverse.find? qualifyingSet).map (fun s => (s.weight, s.reps))
    | none => seedFromHistoryClaim nm rest

/-- The session init effect of the source (success path): one
fresh `WorkoutExercise` per routine exercise, `exercise.sets || 3` sets,
each seeded with the weight/reps found by the history scan, defaulting
to weight `"0"` and reps `(exercise.reps || 10).toString()`. -/
def initWorkoutWithHistory (exercises : List Exercise)
    (history : List WorkoutHistoryItem) : List WorkoutExercise :=
  exercises.map (fun exercise =>
    let seed :=
      (seedFromHistory exercise.name history).getD
        ("0", toString (orFalsy exercise.reps 10))
    { exerciseId := exercise.id
      exerciseName := exercise.name
      currentSet := 0
      restTime := 90
      sets := (List.range (orFalsy exercise.sets 3)).map (fun i =>
        { setNumber := i + 1
          weight := seed.1
          reps := seed.2
          completed := false }) })

/-! ## The session state and `completeSet` -/

/-- The `WorkoutSession` component state that `completeSet` touches:
the exercise array and the rest-timer fields. -/
structure SessionState where
  workoutExercises : List WorkoutExercise
  timerActive : Bool
  timeRemaining : Int
  timerEndTime : Option Int
deriving DecidableEq, Repr

/-- Which user-visible outcome a `completeSet` call produced. -/
inductive CompleteSetEvent where
  | toggledOff
  | validationError
  | completedSet
deriving DecidableEq, Repr

/-- Replace the element at index `i` by `f` of it, keep the rest: the
`list.map((x, idx) => idx === i ? f(x) : x)` pattern of the source. -/
def mapAt : List α → Nat → (α → α) → List α
  | [], _, _ => []
  | a :: as, 0, f => f a :: as
  | a :: as, n + 1, f => a :: mapAt as n f

/-- `completeSet(exerciseIndex, setIndex)` of the source. `none` models
the crash on an out-of-range index; otherwise the new state plus the
event (toggle-off / validation alert / completion with timer start). -/
def completeSet (st : SessionState) (now : Int) (ei si : Nat) :
    Option (SessionState × CompleteSetEvent) :=
  match st.workoutExercises[ei]? with
  | none => none
  | some exercise =>
    match exercise.sets[si]? with
    | none => none
    | some s0 =>
      if s0.completed then
        some ({ st with
                  workoutExercises := mapAt st.workoutExercises ei (fun ex =>
                    { ex with
                        sets := mapAt ex.sets si (fun s =>
                          { s with completed := false }) }) },
              CompleteSetEvent.toggledOff)
      else if s0.weight = "" ∨ s0.reps = "" ∨ s0.weight = "0" ∨ s0.reps = "0" then
        some (st, CompleteSetEvent.validationError)
      else
        some ({ st with
                  workoutExercises := mapAt st.workoutExercises ei (fun ex =>
                    { ex with
                        currentSet := min (si + 1) (ex.sets.length - 1)
                        sets := mapAt ex.sets si (fun s =>
                          { s with completed := true }) })
                  timerEndTime := some (now + exercise.restTime * 1000)
                  timeRemaining := exercise.restTime
                  timerActive := true },
              CompleteSetEvent.completedSet)

/-! ## Rest timer resume (`handleAppStateChange`) -/

/-- Integer ceiling division by a positive divisor, for the
`Math.ceil((end - now) / 1000)` of the source. -/
def ceilDivMs (a : Int) (b : Int) : Int := -((-a).fdiv b)

/-- The `handleAppStateChange` listener when the app state becomes
`"active"`: if the timer is running, recompute the remaining seconds
from the wall clock; if none remain, go idle and fire one rest-complete
notification (the returned count). -/
def resumeTimer (st : SessionState) (now : Int) : SessionState × Nat :=
  if st.timerActive then
    match st.timerEndTime with
    | some endT =>
      let remaining := max 0 (ceilDivMs (endT - now) 1000)
      if remaining ≤ 0 then
        ({ st with timerActive := false, timeRemaining := 0, timerEndTime := none }, 1)
      else
        ({ st with timeRemaining := remaining }, 0)
    | none => (st, 0)
  else (st, 0)

/-- The rest-timer start performed at the end of `completeSet`:
`timerEndTime = now + seconds * 1000`, `timeRemaining = seconds`,
`timerActive = true`. -/
def startRestTimer (st : SessionState) (seconds : Int) (now : Int) : SessionState :=
  { st with
      timerEndTime := some (now + seconds * 1000)
      timeRemaining := seconds
      timerActive := true }

/-! ## Finishing a workout (`saveWorkout` / `saveWorkoutData`) -/

/-- Both storage collections, each a single serialized blob in
`AsyncStorage` (`workoutHistory` and `workoutRoutines`). -/
structure Stores where
  history : List WorkoutHistoryItem
  routines : List Routine
deriving DecidableEq, Repr

/-- `completedSets` as computed in `saveWorkout`/`saveWorkoutData`:
`workoutExercises.flatMap(ex => ex.sets.filter(set => set.completed))`. -/
def completedSetsOf (exs : List WorkoutExercise) : List WorkoutSet :=
  exs.flatMap (fun ex => ex.sets.filter (fun s => s.completed))

/-- JavaScript `Math.round` (half rounds toward positive infinity). -/
def jsRound (q : ℚ) : Int := Int.floor (q + 1 / 2)

/-- The `workout` history item built in `saveWorkoutData`. -/
def buildWorkoutItem (routine : Routine) (exs : List WorkoutExercise)
    (startTime now : Int) (freshId : String) : WorkoutHistoryItem :=
  { id := freshId
    routineName := routine.name
    routineId := routine.id
    exercises := exs
    startTime := startTime
    endTime := now
    duration := jsRound (((now - startTime : ℤ) : ℚ) / 1000 / 60)
    completedSets := (completedSetsOf exs).length
    totalSets := exs.foldl (fun total ex => total + ex.sets.length) 0 }

/-- The history write of `saveWorkoutData`: `history.unshift(workout)`
then `history.splice(100)` when the length exceeds 100. -/
def appendHistory (item : WorkoutHistoryItem) (h : List WorkoutHistoryItem) :
    List WorkoutHistoryItem :=
  let h1 := item :: h
  if h1.length > 100 then h1.take 100 else h1

/-- The `exercisesString` derivation used by both `saveRoutine` and the
routine-update branch of `saveWorkoutData`: first 3 exercise names
comma-joined, with a trailing ellipsis when there are more than 3. -/
def exercisesStringOf (exs : List Exercise) : String :=
  if exs.length > 3 then
    String.intercalate ", " ((exs.take 3).map (fun e => e.name)) ++ "..."
  else
    String.intercalate ", " (exs.map (fun e => e.name))

/-- The per-routine update of the `updateRoutine` branch of
`saveWorkoutData`: for each routine exercise, find the session exercise
with the same name (case-insensitive); if it has strictly more sets
than `routineEx.sets || 3`, rewrite the `sets` field; then recompute
`exercisesString`. -/
def updateRoutineFromSession (r : Routine) (exs : List WorkoutExercise) : Routine :=
  let updatedExercises := r.exercises.map (fun routineEx =>
    match exs.find? (fun wEx => strToLower wEx.exerciseName == strToLower routineEx.name) with
    | some wEx =>
        if wEx.sets.length > orFalsy routineEx.sets 3 then
          { routineEx with sets := some wEx.sets.length }
        else routineEx
    | none => routineEx)
  { r with
      exercises := updatedExercises
      exercisesString := exercisesStringOf updatedExercises }

/-- `saveWorkoutData(updateRoutine)` of the source: append the built
history item (bounded at 100), and when `updateRoutine` is set, patch
the originating routine (matched by id) in the stored collection. -/
def saveWorkoutData (routine : Routine) (exs : List WorkoutExercise)
    (startTime now : Int) (freshId : String) (stores : Stores)
    (updateRoutine : Bool) : Stores :=
  { history := appendHistory (buildWorkoutItem routine exs startTime now freshId) stores.history
    routines :=
      if updateRoutine then
        stores.routines.map (fun r =>
          if r.id = routine.id then updateRoutineFromSession r exs else r)
      else stores.routines }

/-- The `exercisesWithAddedSets` filter of `saveWorkout`: session
exercises whose set count grew beyond the originating routine exercise
(matched here by id) with template default `routineEx.sets || 3`. -/
def exercisesWithAddedSets (routine : Routine) (exs : List WorkoutExercise) :
    List WorkoutExercise :=
  exs.filter (fun wEx =>
    match routine.exercises.find? (fun rEx => rEx.id == wEx.exerciseId) with
    | some original => wEx.sets.length > orFalsy original.sets 3
    | none => false)

/-- Outcome of `saveWorkout`: either the empty-workout alert with the
stores untouched, or a save through `saveWorkoutData`. -/
inductive FinishResult where
  | emptyWorkout (stores : Stores)
  | saved (stores : Stores) (updatedRoutine : Bool)
deriving DecidableEq, Repr

/-- `saveWorkout` of the source. The added-sets confirmation dialog is
modelled by the caller-supplied `updateRoutineChoice`, consulted only
when `exercisesWithAddedSets` is non-empty (otherwise
`saveWorkoutData()` runs with `updateRoutine = false`). -/
def saveWorkoutOutcome (routine : Routine) (exs : List WorkoutExercise)
    (startTime now : Int) (freshId : String) (stores : Stores)
    (updateRoutineChoice : Bool) : FinishResult :=
  if (completedSetsOf exs).length = 0 then
    FinishResult.emptyWorkout stores
  else
    let added := exercisesWithAddedSets routine exs
    let upd := if added.length > 0 then updateRoutineChoice else false
    FinishResult.saved (saveWorkoutData routine exs startTime now freshId stores upd) upd

/-! ## Routine save (`saveRoutine` of the NewRoutineForm component) -/

/-- Outcome of `saveRoutine`: a validation alert (name empty or no
exercise selected, nothing persisted) or the rewritten collection. -/
inductive SaveRoutineResult where
  | validationError
  | saved (routines : List Routine)
deriving DecidableEq, Repr

/-- `saveRoutine` of the source. `existingRoutine` is the component's
editing prop; `freshId` models `Date.now().toString()` and `nowIso`
models `new Date().toISOString()`. -/
def saveRoutine (routineName : String) (selectedExercises : List Exercise)
    (existingRoutine : Option Routine) (stored : List Routine)
    (freshId : String) (nowIso : String) : SaveRoutineResult :=
  if strTrim routineName = "" then SaveRoutineResult.validationError
  else if selectedExercises.length = 0 then SaveRoutineResult.validationError
  else
    let routine : Routine :=
      { id := match existingRoutine with | some e => e.id | none => freshId
        name := routineName
        exercisesString := exercisesStringOf selectedExercises
        exercises := selectedExercises
        createdAt := match existingRoutine with | some e => e.createdAt | none => nowIso }
    match existingRoutine with
    | some e =>
      match stored.findIdx? (fun r => r.id == e.id) with
      | some idx => SaveRoutineResult.saved (stored.set idx routine)
      | none => SaveRoutineResult.saved (stored ++ [routine])
    | none => SaveRoutineResult.saved (stored ++ [routine])

/-! ## Concrete fixtures used by witnesses and counterexamples -/

/-- The spec's volume example: completed `100×10`, completed `abc×5`,
uncompleted `50×5`. -/
def volumeExampleSession : List WorkoutExercise :=
  [{ exerciseId := "e1", exerciseName := "Bench Press"
     sets := [{ setNumber := 1, weight := "100", reps := "10", completed := true },
              { setNumber := 2, weight := "abc", reps := "5", completed := true },
              { setNumber := 3, weight := "50", reps := "5", completed := false }]
     currentSet := 0, restTime := 90 }]

/-- A fully-parseable session: completed `100×10` and uncompleted `50×5`. -/
def volumeParseableSession : List WorkoutExercise :=
  [{ exerciseId := "e1", exerciseName := "Bench Press"
     sets := [{ setNumber := 1, weight := "100", reps := "10", completed := true },
              { setNumber := 3, weight := "50", reps := "5", completed := false }]
     currentSet := 0, restTime := 90 }]

/-- Most recent history item: contains "Bench Press" but no completed set. -/
def histItemNoCompleted : WorkoutHistoryItem :=
  { id := "h1", routineName := "R", routineId := "r1"
    exercises := [{ exerciseId := "e1", exerciseName := "Bench Press"
                    sets := [{ setNumber := 1, weight := "100", reps := "8", completed := false }]
                    currentSet := 0, restTime := 90 }]
    startTime := 0, endTime := 0, duration := 0, completedSets := 0, totalSets := 1 }

/-- Older history item: contains "bench press" with a completed
`135×8` set. -/
def histItemCompleted : WorkoutHistoryItem :=
  { id := "h2", routineName := "R", routineId := "r1"
    exercises := [{ exerciseId := "e1", exerciseName := "bench press"
                    sets := [{ setNumber := 1, weight := "135", reps := "8", completed := true }]
                    currentSet := 0, restTime := 90 }]
    startTime := 0, endTime := 0, duration := 1, completedSets := 1, totalSets := 1 }

/-- History whose most recent "Bench Press" workout has no qualifying
set, while an older one does. -/
def skipHistory : List WorkoutHistoryItem := [histItemNoCompleted, histItemCompleted]

/-- Routine exercise "Bench Press" with 2 configured sets. -/
def benchExercise : Exercise := { id := "e9", name := "Bench Press", sets := some 2, reps := some 10 }

/-- A target set with weight `"0"` that must fail validation. -/
def zeroWeightSet : WorkoutSet := { setNumber := 1, weight := "0", reps := "5", completed := false }

/-- An exercise holding `zeroWeightSet`. -/
def zeroWeightExercise : WorkoutExercise :=
  { exerciseId := "e1", exerciseName := "Squats", sets := [zeroWeightSet], currentSet := 0, restTime := 120 }

/-- Session whose only set has weight `"0"`. -/
def zeroWeightState : SessionState :=
  { workoutExercises := [zeroWeightExercise], timerActive := false, timeRemaining := 0, timerEndTime := none }

/-- A valid uncompleted target set (`60×5`). -/
def validSet : WorkoutSet := { setNumber := 1, weight := "60", reps := "5", completed := false }

/-- An exercise with two uncompleted valid sets and a 120s rest time. -/
def validExercise : WorkoutExercise :=
  { exerciseId := "e1", exerciseName := "Squats"
    sets := [validSet, { setNumber := 2, weight := "60", reps := "5", completed := false }]
    currentSet := 0, restTime := 120 }

/-- Session holding `validExercise`, timer idle. -/
def validState : SessionState :=
  { workoutExercises := [validExercise], timerActive := false, timeRemaining := 0, timerEndTime := none }

/-- A completed target set (`80×8`). -/
def doneSet : WorkoutSet := { setNumber := 1, weight := "80", reps := "8", completed := true }

/-- An exercise whose first set is completed. -/
def doneExercise : WorkoutExercise :=
  { exerciseId := "e2", exerciseName := "Deadlifts", sets := [doneSet], currentSet := 0, restTime := 150 }

/-- Session holding `doneExercise`, with a running timer that the
toggle must not modify. -/
def doneState : SessionState :=
  { workoutExercises := [doneExercise], timerActive := true, timeRemaining := 42, timerEndTime := some 99000 }

/-- An idle session (no exercises, timer off). -/
def idleState : SessionState :=
  { workoutExercises := [], timerActive := false, timeRemaining := 0, timerEndTime := none }

/-- Three uncompleted sets. -/
def uncompletedSets3 : List WorkoutSet :=
  [{ setNumber := 1, weight := "0", reps := "10", completed := false },
   { setNumber := 2, weight := "0", reps := "10", completed := false },
   { setNumber := 3, weight := "0", reps := "10", completed := false }]

/-- A 3-exercise, 9-set session with zero completed sets. -/
def emptyWorkoutSession : List WorkoutExercise :=
  [{ exerciseId := "e1", exerciseName := "Squats", sets := uncompletedSets3, currentSet := 0, restTime := 90 },
   { exerciseId := "e2", exerciseName := "Bench Press", sets := uncompletedSets3, currentSet := 0, restTime := 90 },
   { exerciseId := "e3", exerciseName := "Deadlifts", sets := uncompletedSets3, currentSet := 0, restTime := 90 }]

/-- A stored routine with three 3-set exercises. -/
def sampleRoutine : Routine :=
  { id := "r1", name := "Full Body"
    exercisesString := "Squats, Bench Press, Deadlifts"
    exercises := [{ id := "e1", name := "Squats", sets := some 3, reps := some 10 },
                  { id := "e2", name := "Bench Press", sets := some 3, reps := some 10 },
                  { id := "e3", name := "Deadlifts", sets := some 3, reps := some 10 }]
    createdAt := "2025-01-01" }

/-- Sample storage contents. -/
def sampleStores : Stores :=
  { history := [histItemCompleted], routines := [sampleRoutine] }

/-- A history already at the 100-item cap. -/
def fullHistory : List WorkoutHistoryItem := List.replicate 100 histItemCompleted

/-- A session run of `sampleRoutine` where "Squats" grew to 5 sets while
"Bench Press" and "Deadlifts" kept their 3. -/
def squatsSession : List WorkoutExercise :=
  [{ exerciseId := "e1", exerciseName := "Squats"
     sets := [{ setNumber := 1, weight := "100", reps := "5", completed := true },
              { setNumber := 2, weight := "100", reps := "5", completed := true },
              { setNumber := 3, weight := "100", reps := "5", completed := true },
              { setNumber := 4, weight := "100", reps := "5", completed := true },
              { setNumber := 5, weight := "100", reps := "5", completed := true }]
     currentSet := 4, restTime := 90 },
   { exerciseId := "e2", exerciseName := "Bench Press"
     sets := [{ setNumber := 1, weight := "60", reps := "8", completed := true },
              { setNumber := 2, weight := "60", reps := "8", completed := true },
              { setNumber := 3, weight := "60", reps := "8", completed := true }]
     currentSet := 2, restTime := 90 },
   { exerciseId := "e3", exerciseName := "Deadlifts"
     sets := [{ setNumber := 1, weight := "120", reps := "5", completed := true },
              { setNumber := 2, weight := "120", reps := "5", completed := true },
              { setNumber := 3, weight := "120", reps := "5", completed := true }]
     currentSet := 2, restTime := 90 }]

/-- An existing routine (id "42") used to probe the editing path of
`saveRoutine` when the id is absent from the stored collection. -/
def existingRoutine42 : Routine :=
  { id := "42", name := "Old Name", exercisesString := "Bench Press"
    exercises := [benchExercise], createdAt := "T0" }

/-! ## Helper lemmas -/

theorem mapAt_length (l : List α) (i : Nat) (f : α → α) :
    (mapAt l i f).length = l.length := by
  induction l generalizing i with
  | nil => rfl
  | cons a as ih =>
    cases i with
    | zero => rfl
    | succ n => simp [mapAt, ih]

theorem get?_mapAt_self {l : List α} {i : Nat} (f : α → α) {a : α}
    (h : l[i]? = some a) : (mapAt l i f)[i]? = some (f a) := by
  induction l generalizing i with
  | nil => simp at h
  | cons x xs ih =>
    cases i with
    | zero =>
      simp only [List.getElem?_cons_zero, Option.some.injEq] at h
      simp [mapAt, h]
    | succ n =>
      simp only [List.getElem?_cons_succ] at h
      simp [mapAt, ih h]

theorem get?_mapAt_ne {l : List α} {i j : Nat} (f : α → α)
    (h : j ≠ i) : (mapAt l i f)[j]? = l[j]? := by
  induction l generalizing i j with
  | nil => rfl
  | cons x xs ih =>
    cases i with
    | zero =>
      cases j with
      | zero => exact absurd rfl h
      | succ m => simp [mapAt]
    | succ n =>
      cases j with
      | zero => simp [mapAt]
      | succ m =>
        simp only [mapAt, List.getElem?_cons_succ]
        exact ih (fun hc => h (by simp [hc]))

/-- Reduction of `completeSet` on an already-completed target set. -/
theorem completeSet_eq_toggled {st : SessionState} {now : Int} {ei si : Nat}
    {ex : WorkoutExercise} {s : WorkoutSet}
    (h1 : st.workoutExercises[ei]? = some ex)
    (h2 : ex.sets[si]? = some s)
    (hc : s.completed = true) :
    completeSet st now ei si =
      some ({ st with
                workoutExercises := mapAt st.workoutExercises ei (fun e =>
                  { e with sets := mapAt e.sets si (fun t =>
                    { t with completed := false }) }) },
            CompleteSetEvent.toggledOff) := by
  simp only [completeSet, h1, h2, hc, if_true]

/-- Reduction of `completeSet` on an uncompleted target set with valid
weight and reps. -/
theorem completeSet_eq_success {st : SessionState} {now : Int} {ei si : Nat}
    {ex : WorkoutExercise} {s : WorkoutSet}
    (h1 : st.workoutExercises[ei]? = some ex)
    (h2 : ex.sets[si]? = some s)
    (hc : s.completed = false)
    (hw1 : s.weight ≠ "") (hw0 : s.weight ≠ "0")
    (hr1 : s.reps ≠ "") (hr0 : s.reps ≠ "0") :
    completeSet st now ei si =
      some ({ st with
                workoutExercises := mapAt st.workoutExercises ei (fun e =>
                  { e with
                      currentSet := min (si + 1) (e.sets.length - 1)
                      sets := mapAt e.sets si (fun t =>
                        { t with completed := true }) })
                timerEndTime := some (now + ex.restTime * 1000)
                timeRemaining := ex.restTime
                timerActive := true },
            CompleteSetEvent.completedSet) := by
  simp only [completeSet, h1, h2, hc]
  rw [if_neg (by simp [hc]), if_neg (by simp [hw1, hw0, hr1, hr0])]

/-! ## Claims about `completeSet` -/

/-- Claim C4: on an uncompleted target set whose weight or reps is `""` or
`"0"`, `completeSet` raises the validation alert and returns the session
state unchanged: no set completed, no `currentSet` change, no rest timer
started. -/
theorem completeSet_validation_unchanged
    (st : SessionState) (now : Int) (ei si : Nat)
    (ex : WorkoutExercise) (s : WorkoutSet)
    (h1 : st.workoutExercises[ei]? = some ex)
    (h2 : ex.sets[si]? = some s)
    (hc : s.completed = false)
    (hbad : s.weight = "" ∨ s.reps = "" ∨ s.weight = "0" ∨ s.reps = "0") :
    completeSet st now ei si = some (st, CompleteSetEvent.validationError) := by
  simp only [completeSet, h1, h2, hc]
  rw [if_neg (by simp [hc]), if_pos hbad]

theorem completeSet_validation_unchanged_witness :
    (zeroWeightState.workoutExercises[0]? = some zeroWeightExercise ∧
      zeroWeightExercise.sets[0]? = some zeroWeightSet ∧
      zeroWeightSet.completed = false ∧ zeroWeightSet.weight = "0") ∧
    completeSet zeroWeightState 5000 0 0 =
      some (zeroWeightState, CompleteSetEvent.validationError) :=
  ⟨⟨by decide, by decide, rfl, rfl⟩,
    completeSet_validation_unchanged zeroWeightState 5000 0 0 zeroWeightExercise
      zeroWeightSet (by decide) (by decide) rfl (Or.inr (Or.inr (Or.inl rfl)))⟩

/-- Claim C3: `completeSet` has toggle semantics. First part: on a target set
with `completed = true`, the call flips that set (and nothing else) back
to `completed = false` and neither starts nor modifies the rest timer.
Second part: two calls on the same uncompleted valid set give
`completed = true` then `completed = false`, and the second call leaves
every rest-timer field exactly as the first call set it. -/
theorem completeSet_toggle :
    (∀ (st : SessionState) (now : Int) (ei si : Nat)
        (ex : WorkoutExercise) (s : WorkoutSet),
      st.workoutExercises[ei]? = some ex →
      ex.sets[si]? = some s →
      s.completed = true →
      ∃ st', completeSet st now ei si = some (st', CompleteSetEvent.toggledOff) ∧
        st'.timerActive = st.timerActive ∧
        st'.timeRemaining = st.timeRemaining ∧
        st'.timerEndTime = st.timerEndTime ∧
        (∃ ex', st'.workoutExercises[ei]? = some ex' ∧
          ex'.currentSet = ex.currentSet ∧
          ex'.restTime = ex.restTime ∧
          ex'.sets[si]? = some { s with completed := false } ∧
          (∀ j, j ≠ si → ex'.sets[j]? = ex.sets[j]?)) ∧
        (∀ i, i ≠ ei → st'.workoutExercises[i]? = st.workoutExercises[i]?)) ∧
    (∀ (st : SessionState) (now now2 : Int) (ei si : Nat)
        (ex : WorkoutExercise) (s : WorkoutSet),
      st.workoutExercises[ei]? = some ex →
      ex.sets[si]? = some s →
      s.completed = false →
      s.weight ≠ "" → s.weight ≠ "0" → s.reps ≠ "" → s.reps ≠ "0" →
      ∃ st1 st2,
        completeSet st now ei si = some (st1, CompleteSetEvent.completedSet) ∧
        completeSet st1 now2 ei si = some (st2, CompleteSetEvent.toggledOff) ∧
        (∃ ex1, st1.workoutExercises[ei]? = some ex1 ∧
          ex1.sets[si]? = some { s with completed := true }) ∧
        st1.timerActive = true ∧
        st2.timerActive = st1.timerActive ∧
        st2.timeRemaining = st1.timeRemaining ∧
        st2.timerEndTime = st1.timerEndTime ∧
        (∃ ex2, st2.workoutExercises[ei]? = some ex2 ∧
          ex2.sets[si]? = some { s with completed := false })) := by
  constructor
  · intro st now ei si ex s h1 h2 hc
    refine ⟨_, completeSet_eq_toggled h1 h2 hc, rfl, rfl, rfl, ?_, ?_⟩
    · refine ⟨_, get?_mapAt_self _ h1, rfl, rfl, ?_, ?_⟩
      · exact get?_mapAt_self _ h2
      · intro j hj
        exact get?_mapAt_ne _ hj
    · intro i hi
      exact get?_mapAt_ne _ hi
  · intro st now now2 ei si ex s h1 h2 hc hw1 hw0 hr1 hr0
    have hstep1 := @completeSet_eq_success st now ei si ex s h1 h2 hc hw1 hw0 hr1 hr0
    have hex1 : (mapAt st.workoutExercises ei (fun e =>
        { e with
            currentSet := min (si + 1) (e.sets.length - 1)
            sets := mapAt e.sets si (fun t => { t with completed := true }) }))[ei]? =
        some { ex with
                 currentSet := min (si + 1) (ex.sets.length - 1)
                 sets := mapAt ex.sets si (fun t => { t with completed := true }) } :=
      get?_mapAt_self _ h1
    have hs1 : (mapAt ex.sets si (fun t => { t with completed := true }))[si]? =
        some { s with completed := true } := get?_mapAt_self _ h2
    refine ⟨_, _, hstep1, completeSet_eq_toggled hex1 hs1 rfl, ⟨_, hex1, hs1⟩,
      rfl, rfl, rfl, rfl, ?_⟩
    refine ⟨_, get?_mapAt_self _ hex1, ?_⟩
    have := get?_mapAt_self (fun t => { t with completed := false }) hs1
    exact this

theorem completeSet_toggle_witness :
    (doneState.workoutExercises[0]? = some doneExercise ∧
      doneExercise.sets[0]? = some doneSet ∧ doneSet.completed = true) ∧
    (∃ st', completeSet doneState 5000 0 0 = some (st', CompleteSetEvent.toggledOff) ∧
      st'.timerActive = doneState.timerActive ∧
      st'.timeRemaining = doneState.timeRemaining ∧
      st'.timerEndTime = doneState.timerEndTime ∧
      (∃ ex', st'.workoutExercises[0]? = some ex' ∧
        ex'.currentSet = doneExercise.currentSet ∧
        ex'.restTime = doneExercise.restTime ∧
        ex'.sets[0]? = some { doneSet with completed := false } ∧
        (∀ j, j ≠ 0 → ex'.sets[j]? = doneExercise.sets[j]?)) ∧
      (∀ i, i ≠ 0 → st'.workoutExercises[i]? = doneState.workoutExercises[i]?)) :=
  ⟨⟨by decide, by decide, rfl⟩,
    completeSet_toggle.1 doneState 5000 0 0 doneExercise doneSet
      (by decide) (by decide) rfl⟩

/-- Claim C5: on an uncompleted target set whose weight and reps are non-empty
and not `"0"`, `completeSet` marks the set completed, moves the
exercise's `currentSet` to `min(setIndex + 1, sets.length - 1)`, and
starts the rest timer from that exercise's own `restTime`. -/
theorem completeSet_success_spec
    (st : SessionState) (now : Int) (ei si : Nat)
    (ex : WorkoutExercise) (s : WorkoutSet)
    (h1 : st.workoutExercises[ei]? = some ex)
    (h2 : ex.sets[si]? = some s)
    (hc : s.completed = false)
    (hw1 : s.weight ≠ "") (hw0 : s.weight ≠ "0")
    (hr1 : s.reps ≠ "") (hr0 : s.reps ≠ "0") :
    ∃ st', completeSet st now ei si = some (st', CompleteSetEvent.completedSet) ∧
      st'.timerActive = true ∧
      st'.timeRemaining = ex.restTime ∧
      st'.timerEndTime = some (now + ex.restTime * 1000) ∧
      (∃ ex', st'.workoutExercises[ei]? = some ex' ∧
        ex'.currentSet = min (si + 1) (ex.sets.length - 1) ∧
        ex'.restTime = ex.restTime ∧
        ex'.sets[si]? = some { s with completed := true } ∧
        (∀ j, j ≠ si → ex'.sets[j]? = ex.sets[j]?)) ∧
      (∀ i, i ≠ ei → st'.workoutExercises[i]? = st.workoutExercises[i]?) := by
  refine ⟨_, completeSet_eq_success h1 h2 hc hw1 hw0 hr1 hr0, rfl, rfl, rfl, ?_, ?_⟩
  · refine ⟨_, get?_mapAt_self _ h1, rfl, rfl, ?_, ?_⟩
    · exact get?_mapAt_self _ h2
    · intro j hj
      exact get?_mapAt_ne _ hj
  · intro i hi
    exact get?_mapAt_ne _ hi

theorem completeSet_success_spec_witness :
    (validState.workoutExercises[0]? = some validExercise ∧
      validExercise.sets[0]? = some validSet ∧ validSet.completed = false) ∧
    (∃ st', completeSet validState 5000 0 0 = some (st', CompleteSetEvent.completedSet) ∧
      st'.timerActive = true ∧
      st'.timeRemaining = validExercise.restTime ∧
      st'.timerEndTime = some (5000 + validExercise.restTime * 1000) ∧
      (∃ ex', st'.workoutExercises[0]? = some ex' ∧
        ex'.currentSet = min (0 + 1) (validExercise.sets.length - 1) ∧
        ex'.restTime = validExercise.restTime ∧
        ex'.sets[0]? = some { validSet with completed := true } ∧
        (∀ j, j ≠ 0 → ex'.sets[j]? = validExercise.sets[j]?)) ∧
      (∀ i, i ≠ 0 → st'.workoutExercises[i]? = validState.workoutExercises[i]?)) :=
  ⟨⟨by decide, by decide, rfl⟩,
    completeSet_success_spec validState 5000 0 0 validExercise validSet
      (by decide) (by decide) rfl (by decide) (by decide) (by decide) (by decide)⟩

/-! ## Claims about finishing and history append -/

/-- Claim C6: when no set across all exercises is completed, `saveWorkout`
stops at the empty-workout alert: the outcome is `emptyWorkout` with the
stored history and routines exactly as given (no append, no routine
write), for any user choice in the update dialog. -/
theorem saveWorkout_emptyGuard
    (routine : Routine) (exs : List WorkoutExercise)
    (startTime now : Int) (freshId : String) (stores : Stores) (choice : Bool)
    (h : ∀ ex ∈ exs, ∀ s ∈ ex.sets, s.completed = false) :
    saveWorkoutOutcome routine exs startTime now freshId stores choice =
      FinishResult.emptyWorkout stores := by
  have hnil : completedSetsOf exs = [] := by
    unfold completedSetsOf
    rw [List.flatMap_eq_nil_iff]
    intro ex hex
    rw [List.filter_eq_nil_iff]
    intro s hs
    simp [h ex hex s hs]
  unfold saveWorkoutOutcome
  rw [hnil]
  rfl

theorem saveWorkout_emptyGuard_witness :
    (∀ ex ∈ emptyWorkoutSession, ∀ s ∈ ex.sets, s.completed = false) ∧
    saveWorkoutOutcome sampleRoutine emptyWorkoutSession 0 600000 "w1" sampleStores true =
      FinishResult.emptyWorkout sampleStores :=
  ⟨by decide,
    saveWorkout_emptyGuard sampleRoutine emptyWorkoutSession 0 600000 "w1"
      sampleStores true (by decide)⟩

/-- Claim C8: the history write prepends the new item and truncates to the
first 100 entries: the result is always `item :: h.take 99` (length at
most 100, new item first, most-recent-first order preserved), on a full
100-entry history exactly the oldest (last) entry is dropped, and the
history written by `saveWorkoutData` is exactly this bounded append of
the built workout item. -/
theorem appendHistory_cap :
    (∀ (item : WorkoutHistoryItem) (h : List WorkoutHistoryItem),
      appendHistory item h = item :: h.take 99 ∧
      (appendHistory item h).length ≤ 100) ∧
    (∀ (item : WorkoutHistoryItem) (h : List WorkoutHistoryItem),
      h.length = 100 → appendHistory item h = item :: h.dropLast) ∧
    (∀ (routine : Routine) (exs : List WorkoutExercise) (startTime now : Int)
      (freshId : String) (stores : Stores) (upd : Bool),
      (saveWorkoutData routine exs startTime now freshId stores upd).history =
        appendHistory (buildWorkoutItem routine exs startTime now freshId) stores.history) := by
  have key : ∀ (item : WorkoutHistoryItem) (h : List WorkoutHistoryItem),
      appendHistory item h = item :: h.take 99 := by
    intro item h
    unfold appendHistory
    by_cases hl : (item :: h).length > 100
    · rw [if_pos hl]
      have : (100 : Nat) = 99 + 1 := rfl
      rw [List.take_succ_cons]
    · rw [if_neg hl]
      simp only [List.length_cons] at hl
      have : h.take 99 = h := List.take_of_length_le (by omega)
      rw [this]
  refine ⟨fun item h => ⟨key item h, ?_⟩, fun item h hlen => ?_, fun _ _ _ _ _ _ _ => rfl⟩
  · rw [key item h]
    simp only [List.length_cons, List.length_take]
    omega
  · rw [key item h, List.dropLast_eq_take, hlen]

theorem appendHistory_cap_witness :
    fullHistory.length = 100 ∧
    appendHistory histItemNoCompleted fullHistory =
      histItemNoCompleted :: fullHistory.dropLast :=
  ⟨by decide, appendHistory_cap.2.1 histItemNoCompleted fullHistory (by decide)⟩

/-! ## Claim about the timer resume -/

/-- Claim C10: if a rest timer was started and its wall-clock end timestamp
has already passed when the app returns to the foreground, the resume
handler recomputes the remaining time from the wall clock, goes idle,
and fires exactly one rest-complete notification; a further resume of
the now-idle timer fires none. -/
theorem resumeTimer_catchup
    (st : SessionState) (d t0 now now2 : Int)
    (h : t0 + d * 1000 ≤ now) :
    resumeTimer (startRestTimer st d t0) now =
      ({ st with timerActive := false, timeRemaining := 0, timerEndTime := none }, 1) ∧
    resumeTimer { st with timerActive := false, timeRemaining := 0, timerEndTime := none } now2 =
      ({ st with timerActive := false, timeRemaining := 0, timerEndTime := none }, 0) := by
  constructor
  · have hc : ceilDivMs (t0 + d * 1000 - now) 1000 ≤ 0 := by
      have h2 : (0 : ℤ) ≤ -(t0 + d * 1000 - now) := by omega
      have h3 := Int.fdiv_nonneg h2 (by norm_num : (0 : ℤ) ≤ 1000)
      unfold ceilDivMs
      omega
    have hmax : max 0 (ceilDivMs (t0 + d * 1000 - now) 1000) = 0 := by omega
    unfold resumeTimer startRestTimer
    simp only [if_true, hmax]
    rfl
  · unfold resumeTimer
    rfl

theorem resumeTimer_catchup_witness :
    ((0 : ℤ) + 90 * 1000 ≤ 95000) ∧
    resumeTimer (startRestTimer idleState 90 0) 95000 =
      ({ idleState with timerActive := false, timeRemaining := 0, timerEndTime := none }, 1) ∧
    resumeTimer { idleState with timerActive := false, timeRemaining := 0, timerEndTime := none } 99000 =
      ({ idleState with timerActive := false, timeRemaining := 0, timerEndTime := none }, 0) :=
  ⟨by norm_num, resumeTimer_catchup idleState 90 0 95000 99000 (by norm_num)⟩

/-! ## Volume (claim C1) -/

theorem jsParseFloat_empty : jsParseFloat "" = none := rfl

theorem jsParseFloat_100 : jsParseFloat "100" = some 100 := by
  have h : jsParseFloat "100" = some (1 * ((100 : ℚ) + 0 / 10 ^ 0)) := rfl
  rw [h]
  norm_num

theorem jsParseFloat_10 : jsParseFloat "10" = some 10 := by
  have h : jsParseFloat "10" = some (1 * ((10 : ℚ) + 0 / 10 ^ 0)) := rfl
  rw [h]
  norm_num

theorem jsParseFloat_5 : jsParseFloat "5" = some 5 := by
  have h : jsParseFloat "5" = some (1 * ((5 : ℚ) + 0 / 10 ^ 0)) := rfl
  rw [h]
  norm_num

theorem jsParseFloat_abc : jsParseFloat "abc" = none := rfl

/-- Inner fold of the volume effect over one exercise's sets: when every
contributing set parses, the NaN-propagating sum agrees with the
treat-unparseable-as-zero sum. -/
theorem volume_fold_sets (sets : List WorkoutSet) (a : ℚ)
    (h : ∀ s ∈ sets, qualifyingSet s = true →
      (jsParseFloat s.weight).isSome ∧ (jsParseFloat s.reps).isSome) :
    sets.foldl
      (fun acc s =>
        if qualifyingSet s then
          jsAdd acc (jsMul (jsParseFloat s.weight) (jsParseFloat s.reps))
        else acc)
      (some a) =
    some (sets.foldl
      (fun acc s =>
        if s.completed then
          acc + ((jsParseFloat s.weight).getD 0) * ((jsParseFloat s.reps).getD 0)
        else acc)
      a) := by
  induction sets generalizing a with
  | nil => rfl
  | cons s rest ih =>
    simp only [List.foldl_cons]
    have hrest : ∀ t ∈ rest, qualifyingSet t = true →
        (jsParseFloat t.weight).isSome ∧ (jsParseFloat t.reps).isSome :=
      fun t ht => h t (List.mem_cons_of_mem _ ht)
    cases hq : qualifyingSet s with
    | true =>
      obtain ⟨hwsome, hrsome⟩ := h s (List.mem_cons_self _ _) hq
      obtain ⟨w, hw⟩ := Option.isSome_iff_exists.mp hwsome
      obtain ⟨r, hr⟩ := Option.isSome_iff_exists.mp hrsome
      have hcomp : s.completed = true := by
        simp only [qualifyingSet, Bool.and_eq_true] at hq
        exact hq.1.1
      rw [if_pos rfl]
      rw [hcomp]
      rw [if_pos rfl]
      rw [hw, hr]
      simp only [jsMul, jsAdd, Option.getD_some]
      exact ih (a + w * r) hrest
    | false =>
      rw [if_neg (by simp [hq])]
      cases hcomp : s.completed with
      | false =>
        rw [if_neg Bool.false_ne_true]
        exact ih a hrest
      | true =>
        have hempty : s.weight = "" ∨ s.reps = "" := by
          simp only [qualifyingSet, hcomp, Bool.true_and, Bool.and_eq_false_iff,
            bne_eq_false_iff_eq] at hq
          exact hq
        rw [if_pos rfl]
        have hzero : ((jsParseFloat s.weight).getD 0) * ((jsParseFloat s.reps).getD 0) = 0 := by
          rcases hempty with he | he <;> rw [he, jsParseFloat_empty] <;> simp
        rw [hzero, add_zero]
        exact ih a hrest

/-- Outer fold of the volume effect over the exercise list. -/
theorem volume_fold_exercises (exs : List WorkoutExercise) (a : ℚ)
    (h : ∀ ex ∈ exs, ∀ s ∈ ex.sets, qualifyingSet s = true →
      (jsParseFloat s.weight).isSome ∧ (jsParseFloat s.reps).isSome) :
    exs.foldl
      (fun acc ex =>
        ex.sets.foldl
          (fun acc2 s =>
            if qualifyingSet s then
              jsAdd acc2 (jsMul (jsParseFloat s.weight) (jsParseFloat s.reps))
            else acc2)
          acc)
      (some a) =
    some (exs.foldl
      (fun acc ex =>
        ex.sets.foldl
          (fun acc2 s =>
            if s.completed then
              acc2 + ((jsParseFloat s.weight).getD 0) * ((jsParseFloat s.reps).getD 0)
            else acc2)
          acc)
      a) := by
  induction exs generalizing a with
  | nil => rfl
  | cons ex rest ih =>
    simp only [List.foldl_cons]
    rw [volume_fold_sets ex.sets a (h ex (List.mem_cons_self _ _))]
    exact ih _ (fun e he => h e (List.mem_cons_of_mem _ he))

/-- Claim C1 (amended): `currentVolume` equals the claimed
sum-over-completed-sets formula provided every completed set with
non-empty weight and reps actually parses as a number; a completed set
with empty weight or reps contributes nothing either way. (Without that
proviso the computed volume is NaN, see the counterexample.) -/
theorem currentVolume_eq_claim (exs : List WorkoutExercise)
    (h : ∀ ex ∈ exs, ∀ s ∈ ex.sets, qualifyingSet s = true →
      (jsParseFloat s.weight).isSome ∧ (jsParseFloat s.reps).isSome) :
    currentVolume exs = some (volumeClaim exs) :=
  volume_fold_exercises exs 0 h

theorem currentVolume_eq_claim_witness :
    (∀ ex ∈ volumeParseableSession, ∀ s ∈ ex.sets, qualifyingSet s = true →
      (jsParseFloat s.weight).isSome ∧ (jsParseFloat s.reps).isSome) ∧
    currentVolume volumeParseableSession = some (volumeClaim volumeParseableSession) :=
  ⟨by decide, currentVolume_eq_claim volumeParseableSession (by decide)⟩

/-- Claim C1 (counterexample): on the spec's own example — completed `100×10`,
completed `abc×5`, uncompleted `50×5` — the code computes NaN
(`parseFloat("abc")` is NaN and `"abc"` passes the non-empty guard), not
the claimed 1000; the claim's own formula does give 1000. -/
theorem currentVolume_nan_counterexample :
    currentVolume volumeExampleSession = none ∧
    currentVolume volumeExampleSession ≠ some 1000 ∧
    volumeClaim volumeExampleSession = 1000 := by
  refine ⟨rfl, ?_, ?_⟩
  · intro h
    rw [show currentVolume volumeExampleSession = none from rfl] at h
    exact Option.noConfusion h
  · simp only [volumeClaim, volumeExampleSession, List.foldl_cons, List.foldl_nil]
    simp only [jsParseFloat_100, jsParseFloat_10, jsParseFloat_5, jsParseFloat_abc,
      if_pos, Option.getD_some, Option.getD_none]
    norm_num

/-! ## Session seeding (claim C2) -/

/-- The history-scan loop equals "first qualifying set across the whole
history": a history item containing a matching exercise but no
qualifying completed set is skipped and the loop keeps going. -/
theorem seedFromHistory_eq_firstSeed (nm : String) (hist : List WorkoutHistoryItem) :
    seedFromHistory nm hist = firstSeed nm hist := by
  induction hist with
  | nil => rfl
  | cons w rest ih =>
    have hstep : seedFromHistory nm (w :: rest) =
        match histSeedOf nm w with
        | some s => some (s.weight, s.reps)
        | none => seedFromHistory nm rest := by
      rw [seedFromHistory, histSeedOf]
      cases w.exercises.find? (fun ex => strToLower ex.exerciseName == strToLower nm) with
      | none => rfl
      | some prev =>
        cases prev.sets.reverse.find? qualifyingSet with
        | none => rfl
        | some s => rfl
    rw [hstep]
    cases hw : histSeedOf nm w with
    | none =>
      rw [ih]
      unfold firstSeed
      rw [List.filterMap_cons, hw]
    | some s =>
      unfold firstSeed
      rw [List.filterMap_cons, hw]
      rfl

/-- Claim C2 (amended): `initWorkoutWithHistory` builds one fresh
workout exercise per routine exercise (`exercise.sets || 3` sets,
`setNumber` 1-based, uncompleted, `currentSet` 0, `restTime` 90), and
every set of an exercise carries the weight/reps of the first
qualifying set found scanning the history most-recent-first (the most
recent matching item that yields a qualifying completed set — matching
items without one are skipped), defaulting to weight `"0"` and reps
`exercise.reps || 10` when no history item yields one. -/
theorem initWorkout_seeding (exercises : List Exercise) (history : List WorkoutHistoryItem) :
    (initWorkoutWithHistory exercises history).length = exercises.length ∧
    (∀ (i : Nat) (e : Exercise), exercises[i]? = some e →
      ∃ we : WorkoutExercise, (initWorkoutWithHistory exercises history)[i]? = some we ∧
        we.exerciseId = e.id ∧ we.exerciseName = e.name ∧
        we.currentSet = 0 ∧ we.restTime = 90 ∧
        we.sets.length = orFalsy e.sets 3 ∧
        (∀ (j : Nat) (s : WorkoutSet), we.sets[j]? = some s →
          s.setNumber = j + 1 ∧ s.completed = false ∧
          (s.weight, s.reps) =
            (firstSeed e.name history).getD ("0", toString (orFalsy e.reps 10)))) := by
  constructor
  · simp [initWorkoutWithHistory]
  · intro i e he
    have hwe : (initWorkoutWithHistory exercises history)[i]? =
        some { exerciseId := e.id, exerciseName := e.name, currentSet := 0, restTime := 90
               sets := (List.range (orFalsy e.sets 3)).map (fun k =>
                 { setNumber := k + 1
                   weight := ((seedFromHistory e.name history).getD
                     ("0", toString (orFalsy e.reps 10))).1
                   reps := ((seedFromHistory e.name history).getD
                     ("0", toString (orFalsy e.reps 10))).2
                   completed := false }) } := by
      unfold initWorkoutWithHistory
      rw [List.getElem?_map, he]
      rfl
    refine ⟨_, hwe, rfl, rfl, rfl, rfl, by simp, ?_⟩
    intro j s hj
    simp only [List.getElem?_map] at hj
    cases hrange : (List.range (orFalsy e.sets 3))[j]? with
    | none =>
      rw [hrange] at hj
      exact Option.noConfusion hj
    | some k =>
      rw [hrange] at hj
      simp only [Option.map_some', Option.some.injEq] at hj
      have hk : k = j := by
        have hlt : j < orFalsy e.sets 3 := by
          by_contra hge
          rw [List.getElem?_eq_none (by simpa [List.length_range] using hge)] at hrange
          exact Option.noConfusion hrange
        rw [List.getElem?_range hlt] at hrange
        exact ((Option.some.injEq _ _).mp hrange).symm
      subst hj
      subst hk
      refine ⟨rfl, rfl, ?_⟩
      rw [← seedFromHistory_eq_firstSeed]

theorem initWorkout_seeding_witness :
    ([benchExercise][0]? = some benchExercise) ∧
    (∃ we : WorkoutExercise, (initWorkoutWithHistory [benchExercise] skipHistory)[0]? = some we ∧
      we.exerciseId = benchExercise.id ∧ we.exerciseName = benchExercise.name ∧
      we.currentSet = 0 ∧ we.restTime = 90 ∧
      we.sets.length = orFalsy benchExercise.sets 3 ∧
      (∀ (j : Nat) (s : WorkoutSet), we.sets[j]? = some s →
        s.setNumber = j + 1 ∧ s.completed = false ∧
        (s.weight, s.reps) =
          (firstSeed benchExercise.name skipHistory).getD
            ("0", toString (orFalsy benchExercise.reps 10)))) :=
  ⟨by decide, (initWorkout_seeding [benchExercise] skipHistory).2 0 benchExercise (by decide)⟩

/-- Claim C2 (counterexample): with a history whose most recent "Bench Press"
item has a matching exercise but no qualifying completed set, and an
older item with a completed `135×8`, the code seeds `135`/`8` from the
older workout — the scan does not stop at the first matching item, where
the claim's stop-at-first-match rule would fall back to the `"0"`
default. -/
theorem initWorkout_seeding_counterexample :
    initWorkoutWithHistory [benchExercise] skipHistory =
      [{ exerciseId := "e9", exerciseName := "Bench Press"
         sets := [{ setNumber := 1, weight := "135", reps := "8", completed := false },
                  { setNumber := 2, weight := "135", reps := "8", completed := false }]
         currentSet := 0, restTime := 90 }] ∧
    seedFromHistoryClaim "Bench Press" skipHistory = none ∧
    ("135" : String) ≠ "0" := by
  refine ⟨by decide, by decide, by decide⟩

/-! ## Routine back-propagation (claim C7) -/

/-- Claim C7: `saveWorkoutData(updateRoutine = true)` rewrites, within the
originating routine only (matched by routine id), the `sets` field of
each routine exercise whose name case-insensitively matches a session
exercise with strictly more sets than the template's
`routineEx.sets || 3`; every other exercise template is untouched, the
routine's summary string is recomputed from the final exercises, and
routines with a different id are persisted unchanged. -/
theorem saveWorkoutData_updateRoutine
    (routine : Routine) (exs : List WorkoutExercise)
    (startTime now : Int) (freshId : String) (stores : Stores)
    (res : Stores)
    (hres : res = saveWorkoutData routine exs startTime now freshId stores true) :
    res.routines.length = stores.routines.length ∧
    (∀ (k : Nat) (r : Routine), stores.routines[k]? = some r → r.id ≠ routine.id →
      res.routines[k]? = some r) ∧
    (∀ (k : Nat) (r : Routine), stores.routines[k]? = some r → r.id = routine.id →
      ∃ r' : Routine, res.routines[k]? = some r' ∧
        r'.id = r.id ∧ r'.name = r.name ∧ r'.createdAt = r.createdAt ∧
        r'.exercises.length = r.exercises.length ∧
        r'.exercisesString = exercisesStringOf r'.exercises ∧
        (∀ (i : Nat) (rEx : Exercise), r.exercises[i]? = some rEx →
          ((∃ wEx : WorkoutExercise,
              exs.find? (fun wEx2 => strToLower wEx2.exerciseName == strToLower rEx.name) =
                some wEx ∧
              wEx.sets.length > orFalsy rEx.sets 3 ∧
              r'.exercises[i]? = some { rEx with sets := some wEx.sets.length }) ∨
           (r'.exercises[i]? = some rEx ∧
             ∀ wEx : WorkoutExercise,
               exs.find? (fun wEx2 => strToLower wEx2.exerciseName == strToLower rEx.name) =
                 some wEx →
               wEx.sets.length ≤ orFalsy rEx.sets 3)))) := by
  subst hres
  have hroutines : (saveWorkoutData routine exs startTime now freshId stores true).routines =
      stores.routines.map (fun r =>
        if r.id = routine.id then updateRoutineFromSession r exs else r) := rfl
  rw [hroutines]
  refine ⟨by simp, ?_, ?_⟩
  · intro k r hk hne
    rw [List.getElem?_map, hk]
    simp only [Option.map_some']
    rw [if_neg hne]
  · intro k r hk heq
    rw [List.getElem?_map, hk]
    simp only [Option.map_some']
    rw [if_pos heq]
    refine ⟨updateRoutineFromSession r exs, rfl, rfl, rfl, rfl,
      by simp [updateRoutineFromSession], rfl, ?_⟩
    intro i rEx hi
    have hmap : (updateRoutineFromSession r exs).exercises[i]? =
        some (match exs.find? (fun wEx => strToLower wEx.exerciseName == strToLower rEx.name) with
              | some wEx =>
                  if wEx.sets.length > orFalsy rEx.sets 3 then
                    { rEx with sets := some wEx.sets.length }
                  else rEx
              | none => rEx) := by
      show (r.exercises.map _)[i]? = _
      rw [List.getElem?_map, hi]
      rfl
    cases hfind : exs.find? (fun wEx => strToLower wEx.exerciseName == strToLower rEx.name) with
    | none =>
      rw [hfind] at hmap
      right
      have hmap2 : (updateRoutineFromSession r exs).exercises[i]? = some rEx := hmap
      refine ⟨hmap2, ?_⟩
      intro wEx hw
      exact Option.noConfusion hw
    | some wEx =>
      rw [hfind] at hmap
      have hmap2 : (updateRoutineFromSession r exs).exercises[i]? =
          some (if wEx.sets.length > orFalsy rEx.sets 3 then
                  { rEx with sets := some wEx.sets.length }
                else rEx) := hmap
      by_cases hgt : wEx.sets.length > orFalsy rEx.sets 3
      · rw [if_pos hgt] at hmap2
        exact Or.inl ⟨wEx, rfl, hgt, hmap2⟩
      · rw [if_neg hgt] at hmap2
        right
        refine ⟨hmap2, ?_⟩
        intro wEx2 hw2
        have heq2 : wEx = wEx2 := (Option.some.injEq _ _).mp hw2
        rw [← heq2]
        omega

theorem saveWorkoutData_updateRoutine_witness :
    (sampleStores.routines[0]? = some sampleRoutine ∧ sampleRoutine.id = sampleRoutine.id) ∧
    (∃ r' : Routine,
      (saveWorkoutData sampleRoutine squatsSession 0 600000 "w2" sampleStores true).routines[0]? =
        some r' ∧
      r'.id = sampleRoutine.id ∧ r'.name = sampleRoutine.name ∧
      r'.createdAt = sampleRoutine.createdAt ∧
      r'.exercises.length = sampleRoutine.exercises.length ∧
      r'.exercisesString = exercisesStringOf r'.exercises ∧
      (∀ (i : Nat) (rEx : Exercise), sampleRoutine.exercises[i]? = some rEx →
        ((∃ wEx : WorkoutExercise,
            squatsSession.find? (fun wEx2 => strToLower wEx2.exerciseName == strToLower rEx.name) =
              some wEx ∧
            wEx.sets.length > orFalsy rEx.sets 3 ∧
            r'.exercises[i]? = some { rEx with sets := some wEx.sets.length }) ∨
         (r'.exercises[i]? = some rEx ∧
           ∀ wEx : WorkoutExercise,
             squatsSession.find? (fun wEx2 => strToLower wEx2.exerciseName == strToLower rEx.name) =
               some wEx →
             wEx.sets.length ≤ orFalsy rEx.sets 3)))) ∧
    (saveWorkoutData sampleRoutine squatsSession 0 600000 "w2" sampleStores true).routines =
      [{ sampleRoutine with
           exercises := [{ id := "e1", name := "Squats", sets := some 5, reps := some 10 },
                         { id := "e2", name := "Bench Press", sets := some 3, reps := some 10 },
                         { id := "e3", name := "Deadlifts", sets := some 3, reps := some 10 }]
           exercisesString := "Squats, Bench Press, Deadlifts" }] :=
  ⟨⟨by decide, rfl⟩,
    (saveWorkoutData_updateRoutine sampleRoutine squatsSession 0 600000 "w2" sampleStores
      _ rfl).2.2 0 sampleRoutine (by decide) rfl,
    by decide⟩

/-! ## Routine save (claim C9) -/

/-- Claim C9 (amended): `saveRoutine` (with a non-empty name and at least one
selected exercise) persists a routine whose summary is recomputed from
the final exercises. When editing and the existing id is found, it
replaces in place preserving id and createdAt; when editing and the id
is NOT found, it appends the routine still carrying the existing
routine's id and createdAt (not a fresh id, not `now`); only when not
editing does it assign the fresh id and `createdAt = now`. -/
theorem saveRoutine_spec
    (nm : String) (exs : List Exercise) (existing : Option Routine)
    (stored : List Routine) (freshId nowIso : String)
    (hname : ¬ strTrim nm = "") (hexs : ¬ exs.length = 0) :
    ∃ (rs : List Routine) (r : Routine),
      saveRoutine nm exs existing stored freshId nowIso = SaveRoutineResult.saved rs ∧
      r.name = nm ∧ r.exercises = exs ∧ r.exercisesString = exercisesStringOf exs ∧
      ((∃ (e : Routine) (idx : Nat), existing = some e ∧
          stored.findIdx? (fun q => q.id == e.id) = some idx ∧
          rs = stored.set idx r ∧ r.id = e.id ∧ r.createdAt = e.createdAt ∧
          rs.length = stored.length) ∨
       (∃ e : Routine, existing = some e ∧
          stored.findIdx? (fun q => q.id == e.id) = none ∧
          rs = stored ++ [r] ∧ r.id = e.id ∧ r.createdAt = e.createdAt) ∨
       (existing = none ∧ rs = stored ++ [r] ∧ r.id = freshId ∧ r.createdAt = nowIso)) := by
  cases existing with
  | none =>
    have hsave : saveRoutine nm exs none stored freshId nowIso =
        SaveRoutineResult.saved
          (stored ++ [{ id := freshId, name := nm, exercisesString := exercisesStringOf exs,
                        exercises := exs, createdAt := nowIso }]) := by
      unfold saveRoutine
      rw [if_neg hname, if_neg hexs]
    exact ⟨_, { id := freshId, name := nm, exercisesString := exercisesStringOf exs,
                exercises := exs, createdAt := nowIso },
      hsave, rfl, rfl, rfl, Or.inr (Or.inr ⟨rfl, rfl, rfl, rfl⟩)⟩
  | some e =>
    have h0 : saveRoutine nm exs (some e) stored freshId nowIso =
        (match stored.findIdx? (fun q => q.id == e.id) with
         | some i =>
             SaveRoutineResult.saved
               (stored.set i { id := e.id, name := nm,
                               exercisesString := exercisesStringOf exs,
                               exercises := exs, createdAt := e.createdAt })
         | none =>
             SaveRoutineResult.saved
               (stored ++ [{ id := e.id, name := nm,
                             exercisesString := exercisesStringOf exs,
                             exercises := exs, createdAt := e.createdAt }])) := by
      unfold saveRoutine
      rw [if_neg hname, if_neg hexs]
    cases hidx : stored.findIdx? (fun q => q.id == e.id) with
    | some idx =>
      rw [hidx] at h0
      exact ⟨_, { id := e.id, name := nm, exercisesString := exercisesStringOf exs,
                  exercises := exs, createdAt := e.createdAt },
        h0, rfl, rfl, rfl,
        Or.inl ⟨e, idx, rfl, hidx, rfl, rfl, rfl, by simp⟩⟩
    | none =>
      rw [hidx] at h0
      exact ⟨_, { id := e.id, name := nm, exercisesString := exercisesStringOf exs,
                  exercises := exs, createdAt := e.createdAt },
        h0, rfl, rfl, rfl,
        Or.inr (Or.inl ⟨e, rfl, hidx, rfl, rfl, rfl⟩)⟩

theorem saveRoutine_spec_witness :
    (¬ strTrim "Push Day" = "" ∧ ¬ ([benchExercise] : List Exercise).length = 0) ∧
    (∃ (rs : List Routine) (r : Routine),
      saveRoutine "Push Day" [benchExercise] none [] "77" "T9" = SaveRoutineResult.saved rs ∧
      r.name = "Push Day" ∧ r.exercises = [benchExercise] ∧
      r.exercisesString = exercisesStringOf [benchExercise] ∧
      ((∃ (e : Routine) (idx : Nat), (none : Option Routine) = some e ∧
          ([] : List Routine).findIdx? (fun q => q.id == e.id) = some idx ∧
          rs = ([] : List Routine).set idx r ∧ r.id = e.id ∧ r.createdAt = e.createdAt ∧
          rs.length = ([] : List Routine).length) ∨
       (∃ e : Routine, (none : Option Routine) = some e ∧
          ([] : List Routine).findIdx? (fun q => q.id == e.id) = none ∧
          rs = [] ++ [r] ∧ r.id = e.id ∧ r.createdAt = e.createdAt) ∨
       ((none : Option Routine) = none ∧ rs = [] ++ [r] ∧ r.id = "77" ∧ r.createdAt = "T9"))) :=
  ⟨⟨by decide, by decide⟩,
    saveRoutine_spec "Push Day" [benchExercise] none [] "77" "T9" (by decide) (by decide)⟩

/-- Claim C9 (counterexample): editing with existing id "42" while the stored
collection does not contain it: the code appends the routine still
carrying id "42" and createdAt "T0", where the claim requires a fresh id
("999" here) and `createdAt = now` ("T1" here). -/
theorem saveRoutine_notFound_counterexample :
    saveRoutine "Push Day" [benchExercise] (some existingRoutine42) [] "999" "T1" =
      SaveRoutineResult.saved
        [{ id := "42", name := "Push Day", exercisesString := "Bench Press"
           exercises := [benchExercise], createdAt := "T0" }] ∧
    ("42" : String) ≠ "999" ∧ ("T0" : String) ≠ "T1" := by
  refine ⟨by decide, by decide, by decide⟩

end GymApp
